import Mathlib

/-!
Shallow embedding of `src/trait_bounds.rs`, a demonstration of Rust's trait
mechanism.  Traits are embedded by passing the implementing type's method as a
function argument; default method bodies become plain functions parameterised
over the required methods; `println!` output is modelled by the `String` (or
`List String`) a demonstration produces.  Machine integer `i32` is modelled by
`Int` (the sole value produced is `32`, far from overflow).
-/

namespace TraitBounds

/-- `NewsArticle` struct (src/trait_bounds.rs lines 17-22): four text fields. -/
structure NewsArticle where
  headline : String
  location : String
  author : String
  content : String

/-- `Tweet` struct (lines 30-35): username, content and two boolean flags. -/
structure Tweet where
  username : String
  content : String
  reply : Bool
  retweet : Bool

/-- `impl Summary for NewsArticle` (lines 24-28):
`format!("{}, by {} ({})", headline, author, location)`. -/
def NewsArticle.summarize (a : NewsArticle) : String :=
  a.headline ++ ", by " ++ a.author ++ " (" ++ a.location ++ ")"

/-- `impl Summary for Tweet` (lines 37-41): `format!("{}: {}", username, content)`. -/
def Tweet.summarize (t : Tweet) : String :=
  t.username ++ ": " ++ t.content

/-- Default body of `Summary2::summarize2` (lines 48-52); it ignores the receiver
and returns the literal `"(Read more...)"`. -/
def Summary2.summarize2_default {α : Type} (_ : α) : String :=
  "(Read more...)"

/-- `impl Summary2 for NewsArticle {}` (line 54): the empty impl block, so
`summarize2` on a `NewsArticle` is the trait's default body. -/
def NewsArticle.summarize2 (a : NewsArticle) : String :=
  Summary2.summarize2_default a

/-- Default body of `Summary3::summarize3` (lines 68-70), parameterised over the
implementing type's `summarize_author` method:
`format!("(Read more from {}...)", self.summarize_author())`. -/
def Summary3.summarize3_default {α : Type} (summarize_author : α → String) (a : α) : String :=
  "(Read more from " ++ summarize_author a ++ "...)"

/-- `<Tweet as Summary3>::summarize_author` (lines 74-78): `format!("@{}", username)`. -/
def Tweet.summarize_author (t : Tweet) : String :=
  "@" ++ t.username

/-- `summarize3` called on a `Tweet` (line 87): the trait's default body
instantiated with Tweet's `summarize_author`. -/
def Tweet.summarize3 (t : Tweet) : String :=
  Summary3.summarize3_default Tweet.summarize_author t

/-- `notify` (lines 96-98): the line it prints, with the `Summary` bound embedded
as the `summarize` method of the instance. -/
def notify {α : Type} (summarize : α → String) (item : α) : String :=
  "Breaking news! " ++ summarize item

/-- `notify2` (lines 104-106): trait-bound syntax version; prints with a colon. -/
def notify2 {α : Type} (summarize : α → String) (item : α) : String :=
  "Breaking news: " ++ summarize item

/-- `notify3` (line 109): two parameters of the same bounded type, empty body. -/
def notify3 {α : Type} (_ : α → String) (_ _ : α) : Unit :=
  ()

/-- `notify4` (line 114): `impl Summary + Display` parameter, empty body; the
`Display` bound is embedded as a rendering function. -/
def notify4 {α : Type} (_ _ : α → String) (_ : α) : Unit :=
  ()

/-- `notify5` (line 117): generic with `Summary + Display` bounds, empty body. -/
def notify5 {α : Type} (_ _ : α → String) (_ : α) : Unit :=
  ()

/-- `some_function` (lines 122-125): `where` clause bounds embedded as the
capability functions of `Display`, `Clone` and `Debug`; body returns `32: i32`. -/
def some_function {T U : Type} (_ : T → String) (_ : T → T) (_ : U → U) (_ : U → String)
    (_ : T) (_ : U) : Int :=
  32

/-- `returns_summarizable` (lines 129-136): returns a fixed `Tweet`. -/
def returns_summarizable : Tweet :=
  ⟨"jcabdu", "The returning type is any that implements the trait Summary", true, false⟩

/-- `Pair<T>` struct (lines 140-143): two fields of the same element type. -/
structure Pair (T : Type) where
  x : T
  y : T

/-- `Pair::new` (lines 145-152): available for every `T`, no bound. -/
def Pair.new {T : Type} (x y : T) : Pair T :=
  ⟨x, y⟩

/-- `Pair::cmp_display` (lines 155-163), available only for `T: Display + PartialOrd`;
the orderable bound is embedded as a `LinearOrder` and `Display` as `disp`.
Returns the line printed: x is reported largest when `x >= y`, else y. -/
def Pair.cmp_display {T : Type} [LinearOrder T] (disp : T → String) (p : Pair T) : String :=
  if p.x ≥ p.y then "The largest member is x= " ++ disp p.x
  else "The largest member is y= " ++ disp p.y

/-- The tweet built in `main` at line 44. -/
def tweet1 : Tweet :=
  ⟨"jcabdu", "Traits in Rust are fun!", false, false⟩

/-- The output of the first tweet demonstration (line 45): `println!` emits
exactly one line, `"1 new tweet: {summarize}"`. -/
def demo1_output : List String :=
  ["1 new tweet: " ++ tweet1.summarize]

/-- Modelled from the spec: the repository's second copy of the demonstration
file.  The spec states the file "is repeated twice with cosmetic formatting
differences only"; the second copy is not under `src/`, so its operations are
modelled with the same bodies (formatting differences do not change behaviour).
NewsArticle summarize of the second copy. -/
def Copy2.NewsArticle_summarize (a : NewsArticle) : String :=
  a.headline ++ ", by " ++ a.author ++ " (" ++ a.location ++ ")"

/-- Modelled from the spec: Tweet summarize of the second file copy. -/
def Copy2.Tweet_summarize (t : Tweet) : String :=
  t.username ++ ": " ++ t.content

/-- Modelled from the spec: default summarize2 body of the second file copy. -/
def Copy2.summarize2_default {α : Type} (_ : α) : String :=
  "(Read more...)"

/-- Modelled from the spec: Tweet summarize_author of the second file copy. -/
def Copy2.Tweet_summarize_author (t : Tweet) : String :=
  "@" ++ t.username

/-- Modelled from the spec: Tweet summarize3 of the second file copy. -/
def Copy2.Tweet_summarize3 (t : Tweet) : String :=
  "(Read more from " ++ Copy2.Tweet_summarize_author t ++ "...)"

/-- Modelled from the spec: notify of the second file copy. -/
def Copy2.notify {α : Type} (summarize : α → String) (item : α) : String :=
  "Breaking news! " ++ summarize item

/-- Modelled from the spec: notify2 of the second file copy. -/
def Copy2.notify2 {α : Type} (summarize : α → String) (item : α) : String :=
  "Breaking news: " ++ summarize item

/-- Modelled from the spec: returns_summarizable of the second file copy. -/
def Copy2.returns_summarizable : Tweet :=
  ⟨"jcabdu", "The returning type is any that implements the trait Summary", true, false⟩

/-- Modelled from the spec: Pair::new of the second file copy. -/
def Copy2.Pair_new {T : Type} (x y : T) : Pair T :=
  ⟨x, y⟩

/-- Modelled from the spec: Pair::cmp_display of the second file copy. -/
def Copy2.Pair_cmp_display {T : Type} [LinearOrder T] (disp : T → String) (p : Pair T) : String :=
  if p.x ≥ p.y then "The largest member is x= " ++ disp p.x
  else "The largest member is y= " ++ disp p.y

/-- Modelled from the spec: notify3 of the second file copy. -/
def Copy2.notify3 {α : Type} (_ : α → String) (_ _ : α) : Unit :=
  ()

/-- Modelled from the spec: notify4 of the second file copy. -/
def Copy2.notify4 {α : Type} (_ _ : α → String) (_ : α) : Unit :=
  ()

/-- Modelled from the spec: notify5 of the second file copy. -/
def Copy2.notify5 {α : Type} (_ _ : α → String) (_ : α) : Unit :=
  ()

/-- Modelled from the spec: some_function of the second file copy. -/
def Copy2.some_function {T U : Type} (_ : T → String) (_ : T → T) (_ : U → U) (_ : U → String)
    (_ : T) (_ : U) : Int :=
  32

/-- The two report lines of `cmp_display` differ at the `x`/`y` character, so
they are never equal, whatever the displayed values are. -/
theorem xmsg_ne_ymsg (s t : String) :
    "The largest member is x= " ++ s ≠ "The largest member is y= " ++ t := by
  intro h
  have hd : "The largest member is x= ".data ++ s.data
      = "The largest member is y= ".data ++ t.data := by
    have h2 := congrArg String.data h
    simp only [String.data_append] at h2
    exact h2
  have hpre := (List.append_inj hd (by decide)).1
  exact absurd hpre (by decide)

/-- C1: for every `Pair T` with `T` orderable and printable, `cmp_display`
reports the largest member as x exactly when `x ≥ y`, and as y otherwise; in
particular when `x = y` the label is x. -/
theorem cmp_display_spec {T : Type} [LinearOrder T] (disp : T → String) (p : Pair T) :
    (p.cmp_display disp = "The largest member is x= " ++ disp p.x ↔ p.x ≥ p.y) ∧
    (¬ p.x ≥ p.y → p.cmp_display disp = "The largest member is y= " ++ disp p.y) ∧
    (p.x = p.y → p.cmp_display disp = "The largest member is x= " ++ disp p.x) := by
  by_cases h : p.x ≥ p.y
  · have hx : p.cmp_display disp = "The largest member is x= " ++ disp p.x := by
      unfold Pair.cmp_display
      rw [if_pos h]
    exact ⟨⟨fun _ => h, fun _ => hx⟩, fun hn => absurd h hn, fun _ => hx⟩
  · have hy : p.cmp_display disp = "The largest member is y= " ++ disp p.y := by
      unfold Pair.cmp_display
      rw [if_neg h]
    refine ⟨⟨fun he => ?_, fun hle => absurd hle h⟩, fun _ => hy,
      fun hxy => absurd (ge_of_eq hxy) h⟩
    rw [hy] at he
    exact absurd he.symm (xmsg_ne_ymsg (disp p.x) (disp p.y))

/-- Witness for C1: a concrete equal pair of naturals, whose label is x. -/
theorem cmp_display_spec_witness :
    (Pair.new (2 : Nat) 2).cmp_display toString = "The largest member is x= 2" := by
  have h := (cmp_display_spec toString (Pair.new (2 : Nat) 2)).2.2 rfl
  rw [h]
  rfl

/-- C2: for every `Tweet` with username `U`, the default `summarize3` composed
with Tweet's `summarize_author` returns exactly `"(Read more from @U...)"`. -/
theorem tweet_summarize3_spec (t : Tweet) :
    t.summarize3 = "(Read more from @" ++ t.username ++ "...)" := by
  show "(Read more from " ++ ("@" ++ t.username) ++ "...)"
      = "(Read more from @" ++ t.username ++ "...)"
  rw [← String.append_assoc]
  rfl

/-- C3: `NewsArticle`'s empty `Summary2` impl block means `summarize2` observes
exactly the default body's literal text `"(Read more...)"`. -/
theorem newsarticle_summarize2_default (a : NewsArticle) :
    a.summarize2 = "(Read more...)" := rfl

/-- C4: for every `NewsArticle` with headline H, author A, location L and any
content, `summarize` returns exactly `"H, by A (L)"`. -/
theorem newsarticle_summarize_spec (hl lo au co : String) :
    NewsArticle.summarize ⟨hl, lo, au, co⟩ = hl ++ ", by " ++ au ++ " (" ++ lo ++ ")" := rfl

/-- C5: for every `Tweet` with username U and content C, `summarize` returns
exactly `"U: C"`. -/
theorem tweet_summarize_spec (u c : String) (r rt : Bool) :
    Tweet.summarize ⟨u, c, r, rt⟩ = u ++ ": " ++ c := rfl

/-- C6: the two copies of the demonstration file (the second modelled from the
spec, which says they differ only in cosmetic formatting) define extensionally
equal functions for every operation. -/
theorem copies_extensionally_equal :
    (∀ a : NewsArticle, Copy2.NewsArticle_summarize a = a.summarize) ∧
    (∀ t : Tweet, Copy2.Tweet_summarize t = t.summarize) ∧
    (∀ (α : Type) (a : α), Copy2.summarize2_default a = Summary2.summarize2_default a) ∧
    (∀ t : Tweet, Copy2.Tweet_summarize_author t = t.summarize_author) ∧
    (∀ t : Tweet, Copy2.Tweet_summarize3 t = t.summarize3) ∧
    (∀ (α : Type) (f : α → String) (a : α), Copy2.notify f a = notify f a) ∧
    (∀ (α : Type) (f : α → String) (a : α), Copy2.notify2 f a = notify2 f a) ∧
    (∀ (α : Type) (f : α → String) (a b : α), Copy2.notify3 f a b = notify3 f a b) ∧
    (∀ (α : Type) (f g : α → String) (a : α), Copy2.notify4 f g a = notify4 f g a) ∧
    (∀ (α : Type) (f g : α → String) (a : α), Copy2.notify5 f g a = notify5 f g a) ∧
    (∀ (T U : Type) (dT : T → String) (cT : T → T) (cU : U → U) (dU : U → String)
      (t : T) (u : U), Copy2.some_function dT cT cU dU t u = some_function dT cT cU dU t u) ∧
    (Copy2.returns_summarizable = returns_summarizable) ∧
    (∀ (T : Type) (x y : T), Copy2.Pair_new x y = Pair.new x y) ∧
    (∀ (T : Type) (_ : LinearOrder T) (disp : T → String) (p : Pair T),
      Copy2.Pair_cmp_display disp p = p.cmp_display disp) := by
  refine ⟨fun _ => rfl, fun _ => rfl, fun _ _ => rfl, fun _ => rfl, fun _ => rfl,
    fun _ _ _ => rfl, fun _ _ _ => rfl, fun _ _ _ _ => rfl, fun _ _ _ _ => rfl,
    fun _ _ _ _ => rfl, fun _ _ _ _ _ _ _ _ => rfl, rfl, fun _ _ _ => rfl,
    fun _ _ _ _ => rfl⟩

/-- C7: every operation defined in the file is a total function on
fully-constructed values: on every input it terminates with a value. -/
theorem all_operations_total :
    (∀ a : NewsArticle, ∃ s, a.summarize = s) ∧
    (∀ a : NewsArticle, ∃ s, a.summarize2 = s) ∧
    (∀ t : Tweet, ∃ s, t.summarize = s) ∧
    (∀ t : Tweet, ∃ s, t.summarize_author = s) ∧
    (∀ t : Tweet, ∃ s, t.summarize3 = s) ∧
    (∀ (α : Type) (f : α → String) (a : α), ∃ s, notify f a = s) ∧
    (∀ (α : Type) (f : α → String) (a : α), ∃ s, notify2 f a = s) ∧
    (∀ (α : Type) (f : α → String) (a b : α), ∃ u, notify3 f a b = u) ∧
    (∀ (α : Type) (f g : α → String) (a : α), ∃ u, notify4 f g a = u) ∧
    (∀ (α : Type) (f g : α → String) (a : α), ∃ u, notify5 f g a = u) ∧
    (∀ (T U : Type) (dT : T → String) (cT : T → T) (cU : U → U) (dU : U → String)
      (t : T) (u : U), ∃ n, some_function dT cT cU dU t u = n) ∧
    (∃ tw, returns_summarizable = tw) ∧
    (∀ (T : Type) (x y : T), ∃ pr, Pair.new x y = pr) ∧
    (∀ (T : Type) (_ : LinearOrder T) (disp : T → String) (p : Pair T),
      ∃ s, p.cmp_display disp = s) := by
  exact ⟨fun a => ⟨_, rfl⟩, fun a => ⟨_, rfl⟩, fun t => ⟨_, rfl⟩, fun t => ⟨_, rfl⟩,
    fun t => ⟨_, rfl⟩, fun _ f a => ⟨_, rfl⟩, fun _ f a => ⟨_, rfl⟩,
    fun _ f a b => ⟨_, rfl⟩, fun _ f g a => ⟨_, rfl⟩, fun _ f g a => ⟨_, rfl⟩,
    fun _ _ dT cT cU dU t u => ⟨_, rfl⟩, ⟨_, rfl⟩, fun _ x y => ⟨_, rfl⟩,
    fun _ _ disp p => ⟨_, rfl⟩⟩

/-- C8: the first tweet demonstration prints exactly one line, equal to
`"1 new tweet: jcabdu: Traits in Rust are fun!"`. -/
theorem first_tweet_demo_output :
    demo1_output = ["1 new tweet: jcabdu: Traits in Rust are fun!"] ∧
    demo1_output.length = 1 :=
  ⟨rfl, rfl⟩

/-- C9: `Pair::new` is unconditional: for every element type `T` (no trait
constraint) and all `x`, `y`, it returns the pair with fields `x` and `y`. -/
theorem pair_new_unconditional (T : Type) (x y : T) :
    (Pair.new x y).x = x ∧ (Pair.new x y).y = y :=
  ⟨rfl, rfl⟩

/-- C10: summaries are insensitive to the fields they do not mention: Tweets
agreeing on username and content summarize identically whatever the flags, and
NewsArticles agreeing on headline, author, location summarize identically
whatever the content. -/
theorem summarize_field_insensitive :
    (∀ t1 t2 : Tweet, t1.username = t2.username → t1.content = t2.content →
      t1.summarize = t2.summarize) ∧
    (∀ a1 a2 : NewsArticle, a1.headline = a2.headline → a1.author = a2.author →
      a1.location = a2.location → a1.summarize = a2.summarize) := by
  refine ⟨fun t1 t2 hu hc => ?_, fun a1 a2 hh ha hl => ?_⟩
  · unfold Tweet.summarize
    rw [hu, hc]
  · unfold NewsArticle.summarize
    rw [hh, ha, hl]

/-- Witness for C10: concrete tweets differing only in flags, and concrete
articles differing only in content, with equal summaries. -/
theorem summarize_field_insensitive_witness :
    (Tweet.mk "u" "c" false true).summarize = (Tweet.mk "u" "c" true false).summarize ∧
    (NewsArticle.mk "h" "l" "a" "c1").summarize
      = (NewsArticle.mk "h" "l" "a" "c2").summarize :=
  ⟨summarize_field_insensitive.1 (Tweet.mk "u" "c" false true)
      (Tweet.mk "u" "c" true false) rfl rfl,
   summarize_field_insensitive.2 (NewsArticle.mk "h" "l" "a" "c1")
      (NewsArticle.mk "h" "l" "a" "c2") rfl rfl rfl⟩

end TraitBounds
